import Mathlib

/-!
# Verification of `src/content.js` (letterboxd-services)

A shallow embedding of the browser-extension content script.  The DOM is
abstracted into the values the script observes through its selectors; the
network is an oracle mapping the queried film slug to a fetch outcome; the
constructed HTML is a tree datatype; the load handler is a pure function
that also records an event trace (reads, mutations, the network call, the
console diagnostic).
-/

namespace LetterboxdServices

/-- An HTML node as built by `createElement`: a tag, an attribute list
(in the order the attributes are set), and a child list. -/
inductive Node where
  | elem : String → List (String × String) → List Node → Node
  | text : String → Node

/-- `ServiceData` from the JSDoc typedef: display name, search URL, icon URL. -/
structure ServiceData where
  name : String
  url : String
  icon : String
deriving DecidableEq, Repr

/-- A JavaScript identifier value flowing into `fetchedTmdbId`: either the
string scraped from the page by `getTmdbID`, or the number returned by the
TMDb API (`data.results[0].id`). -/
inductive JsId where
  | str : String → JsId
  | num : Nat → JsId
deriving DecidableEq, Repr

/-- `String.prototype.split` with a one-character separator: accumulate
the current segment (in reverse) and emit it at each separator and at the
end.  Splitting never yields the empty list (the empty string splits to
`[""]`). -/
def jsSplitAux (sep : Char) : List Char → List Char → List String
  | [], acc => [String.mk acc.reverse]
  | c :: cs, acc =>
    if c = sep then String.mk acc.reverse :: jsSplitAux sep cs []
    else jsSplitAux sep cs (c :: acc)

/-- `url.split(sep)` for a one-character separator. -/
def jsSplit (sep : Char) (s : String) : List String :=
  jsSplitAux sep s.toList []

/-- Whether the first list is an initial segment of the second. -/
def listIsPfx : List Char → List Char → Bool
  | [], _ => true
  | _ :: _, [] => false
  | p :: ps, c :: cs => p = c && listIsPfx ps cs

/-- `s.startsWith(pre)`. -/
def strStartsWith (s pre : String) : Bool :=
  listIsPfx pre.toList s.toList

/-- Whether a string is empty (the JavaScript falsiness test for strings). -/
def strIsEmpty (s : String) : Bool :=
  s.toList.isEmpty

/-- The regex test `/^\d+$/.test(s)` without the non-emptiness part:
every character is a decimal digit. -/
def strAllDigits (s : String) : Bool :=
  s.toList.all Char.isDigit

/-- JavaScript truthiness of a `JsId` value: a string is truthy iff
non-empty, a number is truthy iff non-zero. -/
def JsId.truthy : JsId → Bool
  | .str s => !(strIsEmpty s)
  | .num n => n != 0

/-- JavaScript truthiness of a possibly-null string (`null` and `""` are falsy). -/
def optStrTruthy : Option String → Bool
  | none => false
  | some s => !(strIsEmpty s)

/-- JavaScript truthiness of a possibly-null `JsId`. -/
def optJsIdTruthy : Option JsId → Bool
  | none => false
  | some j => j.truthy

/-- The DOM state as observed by the script's selectors at read time:
the `href` of the first `.micro-button` / `.tmdb-button` match (if any),
the `innerText` of the `h1` inside `.details` and of `.releaseyear > a`
(if present), `window.location.href`, and whether the page has an element
with id `watch` and a pre-existing element of class `services`. -/
structure Dom where
  microButtonHref : Option String
  tmdbButtonHref : Option String
  detailsTitle : Option String
  detailsYear : Option String
  locationHref : String
  watchPresent : Bool
  hostServicesPresent : Bool
deriving DecidableEq, Repr

/-- `getImdbID`: take segment 4 of the `.micro-button` href split on `/`;
return it only when it starts with `"tt"`, else `null`. -/
def getImdbID (dom : Dom) : Option String :=
  match dom.microButtonHref with
  | none => none
  | some url =>
    match (jsSplit '/' url)[4]? with
    | none => none
    | some id => if strStartsWith id "tt" then some id else none

/-- `getTmdbID`: take the last segment of the `.tmdb-button` href split on
`/` (`.pop()`); return it only when it is non-empty and all decimal digits
(the regex `^\d+$`), else `null`. -/
def getTmdbID (dom : Dom) : Option String :=
  match dom.tmdbButtonHref with
  | none => none
  | some url =>
    match (jsSplit '/' url).getLast? with
    | none => none
    | some id =>
      if !(strIsEmpty id) && strAllDigits id then some id else none

/-- The whitespace class of the JavaScript regex `\s` (restricted to the
ASCII range, which is all that can occur in the scraped strings). -/
def jsIsSpace (c : Char) : Bool :=
  c = ' ' || c = '\t' || c = '\n' || c = '\r' || c = '\x0b' || c = '\x0c'

/-- `replace(/\s+/g, "-")` on a character list: each maximal run of
whitespace becomes a single hyphen.  The boolean flag records whether the
previous character was part of a whitespace run. -/
def collapseWs : List Char → Bool → List Char
  | [], _ => []
  | c :: cs, inRun =>
    if jsIsSpace c then
      if inRun then collapseWs cs true else '-' :: collapseWs cs true
    else c :: collapseWs cs false

/-- `rawQuery.replace(/\s+/g, "-")`. -/
def jsReplaceWs (s : String) : String :=
  String.mk (collapseWs s.toList false)

/-- `getQuery`: reads the title and the release year from the details
container, but builds `rawQuery` from the template literal
`` `${title ?? ""}` `` alone (the `year` binding of the source is read and
then never used), then hyphenates whitespace. -/
def getQuery (dom : Dom) : String :=
  let title := dom.detailsTitle
  let _year := dom.detailsYear
  let rawQuery := title.getD ""
  jsReplaceWs rawQuery

/-- Strip a literal character sequence from the head of a character list,
returning the rest on success. -/
def dropLitAux : List Char → List Char → Option (List Char)
  | [], cs => some cs
  | _ :: _, [] => none
  | l :: ls, c :: cs => if l = c then dropLitAux ls cs else none

/-- The maximal run of non-`/` characters at the head of the list
(the greedy `[^/]+` capture). -/
def takeNonSlash : List Char → List Char
  | [] => []
  | c :: cs => if c = '/' then [] else c :: takeNonSlash cs

/-- Try to match the regex `letterboxd.com\/film\/([^/]+)` at the head of
the character list: the literal `letterboxd`, one arbitrary character (the
unescaped `.`), the literal `com/film/`, then a non-empty run of
non-slash characters, which is the capture. -/
def lbMatchAt (cs : List Char) : Option String :=
  match dropLitAux "letterboxd".toList cs with
  | none => none
  | some rest =>
    match rest with
    | [] => none
    | _ :: rest2 =>
      match dropLitAux "com/film/".toList rest2 with
      | none => none
      | some rest3 =>
        let cap := takeNonSlash rest3
        if cap.isEmpty then none else some (String.mk cap)

/-- Leftmost-first search of the regex over the whole string, as
`String.prototype.match` does. -/
def lbScan : List Char → Option String
  | [] => none
  | c :: cs =>
    match lbMatchAt (c :: cs) with
    | some s => some s
    | none => lbScan cs

/-- `getLetterboxdFilmName`: first match of
`/letterboxd.com\/film\/([^/]+)/` against `window.location.href`,
returning the capture group, or `null` when there is no match. -/
def getLetterboxdFilmName (dom : Dom) : Option String :=
  lbScan dom.locationHref.toList

/-- One element of the TMDb search response's `results` array, with the
identifier field the script reads (`results[0].id`, a JSON number). -/
structure TmdbResult where
  id : Nat
deriving DecidableEq, Repr

/-- Outcome of `await fetch(apiUrl)` followed by `await response.json()`:
either one of the two awaits throws (network failure or a non-JSON body),
or a JSON value is obtained whose `results` field is absent (`none`) or an
array. -/
inductive FetchOutcome where
  | netError : FetchOutcome
  | ok : Option (List TmdbResult) → FetchOutcome
deriving DecidableEq, Repr

/-- Result of `fetchTmdbIdFromLetterboxd`: the returned value and the
number of `console.error` diagnostics it emitted. -/
structure FetchResult where
  value : Option Nat
  diagnostics : Nat
deriving DecidableEq, Repr

/-- `fetchTmdbIdFromLetterboxd`, as a total function of the fetch outcome:
`data.results && data.results.length > 0` selects `results[0].id`;
an absent or empty `results` logs `Movie not found on TMDb` and returns
`null`; the `catch` branch logs `Error fetching TMDb data` and returns
`null`.  No outcome escapes as an exception. -/
def fetchTmdbIdFromLetterboxd (outcome : FetchOutcome) : FetchResult :=
  match outcome with
  | .netError => { value := none, diagnostics := 1 }
  | .ok none => { value := none, diagnostics := 1 }
  | .ok (some []) => { value := none, diagnostics := 1 }
  | .ok (some (r :: _)) => { value := some r.id, diagnostics := 0 }

/-- `createElement`: a fresh element with the given attributes (set in
order) and children (appended in order). -/
def createElement (tag : String) (attributes : List (String × String))
    (children : List Node) : Node :=
  Node.elem tag attributes children

/-- `createServiceIcon`: the `img` element for a service icon. -/
def createServiceIcon (iconURL : String) : Node :=
  createElement "img" [("src", iconURL), ("width", "20"), ("height", "20")] []

/-- The mutable parts of the page the script writes to: the children the
script appended to `document.head`, and the children of the element found
by the `.services` selector (`none` when no such element exists). -/
structure PageState where
  headAppended : List Node
  servicesContent : Option (List Node)

/-- The paragraph node `addService` builds for one descriptor:
`p.service > a.label[href][target=_blank] > (span.brand > img, span.title > text)`. -/
def serviceItem (sd : ServiceData) : Node :=
  let brand := createElement "span" [("class", "brand")] [createServiceIcon sd.icon]
  let title := createElement "span" [("class", "title")] [Node.text sd.name]
  let serviceLink :=
    createElement "a" [("href", sd.url), ("target", "_blank"), ("class", "label")]
      [brand, title]
  createElement "p" [("class", "service")] [serviceLink]

/-- `addService`: if `document.querySelector(".services")` is `null`,
return with the page untouched; otherwise build the service item and
append it to the section. -/
def addService (st : PageState) (sd : ServiceData) : PageState :=
  match st.servicesContent with
  | none => st
  | some items => { st with servicesContent := some (items ++ [serviceItem sd]) }

/-- The `style` node `initPage` appends to `document.head`. -/
def styleNode : Node :=
  createElement "style" []
    [Node.text ".services > .service \x7bdisplay: flex !important;\x7d"]

/-- `initPage`: append the style to the head; when the page has an element
with id `watch`, replace it with a fresh empty `section.services`
(afterwards the `.services` selector finds that section, with no children
appended yet). -/
def initPage (dom : Dom) (st : PageState) : PageState :=
  { headAppended := st.headAppended ++ [styleNode],
    servicesContent := if dom.watchPresent then some [] else st.servicesContent }

/-- The page state when the handler starts: nothing appended to the head
by the script yet; the `.services` selector resolves (to a section whose
script-appended child list is empty) exactly when the host page already
has such an element. -/
def startState (dom : Dom) : PageState :=
  { headAppended := [],
    servicesContent := if dom.hostServicesPresent then some [] else none }

/-- After `initPage`, the document has an element matching `.services`
exactly when the page had a `#watch` element (now replaced) or already
contained a `.services` element. -/
def servicesPresent (dom : Dom) : Bool :=
  dom.watchPresent || dom.hostServicesPresent

/-- Observable events of one run of the load handler, in program order. -/
inductive Event where
  | mutStyle : Event
  | mutReplaceWatch : Event
  | readDetails : Event
  | readMicro : Event
  | readTmdb : Event
  | readLocation : Event
  | netFetch : String → Event
  | diagFailure : Event
  | readServices : Event
  | mutAppend : Event
deriving DecidableEq, Repr

/-- Reads of the host page's own markup: the three selector-based
extractions.  (`readLocation` reads the URL, not the markup; `readServices`
looks up the script-managed services section.) -/
def Event.isMarkupRead : Event → Bool
  | .readDetails => true
  | .readMicro => true
  | .readTmdb => true
  | _ => false

/-- DOM mutations performed by the script. -/
def Event.isMutation : Event → Bool
  | .mutStyle => true
  | .mutReplaceWatch => true
  | .mutAppend => true
  | _ => false

/-- The network call event. -/
def Event.isNetFetch : Event → Bool
  | .netFetch _ => true
  | _ => false

/-- The fallback block of the handler: when the page-scraped TMDb ID is
falsy, read the location, and when a film slug was extracted, await the
API call.  Returns the emitted events, the diagnostics count of the fetch,
and the final `fetchedTmdbId` value. -/
def resolveTmdbId (dom : Dom) (net : String → FetchOutcome) :
    List Event × Nat × Option JsId :=
  match getTmdbID dom with
  | some t => ([], 0, some (JsId.str t))
  | none =>
    match getLetterboxdFilmName dom with
    | none => ([Event.readLocation], 0, none)
    | some slug =>
      let fr := fetchTmdbIdFromLetterboxd (net slug)
      ([Event.readLocation, Event.netFetch slug], fr.diagnostics,
        (fr.value.map JsId.num))

/-- The observable outcome of one run of the `window.onload` handler. -/
structure HandlerOut where
  trace : List Event
  providerCalls : List (String × Option String × Option JsId)
  usedTmdbId : Option JsId
  headAppended : List Node
  servicesContent : Option (List Node)
  handlerDiagnostics : Nat
  fetchDiagnostics : Nat

/-- The guard of `if (!query || (!imdbId && !fetchedTmdbId))`: the query
is falsy (empty), or both the IMDb ID and the resolved TMDb ID are falsy
(`null`, or for the TMDb value an empty string or the number `0`). -/
def failCond (dom : Dom) (net : String → FetchOutcome) : Bool :=
  strIsEmpty (getQuery dom) ||
    (!(optStrTruthy (getImdbID dom)) && !(optJsIdTruthy (resolveTmdbId dom net).2.2))

/-- The events of the handler up to (and including) the optional network
call: the two possible `initPage` mutations, the three selector reads, and
the fallback block's events. -/
def preEvents (dom : Dom) (net : String → FetchOutcome) : List Event :=
  ([Event.mutStyle] ++ (if dom.watchPresent then [Event.mutReplaceWatch] else [])) ++
    [Event.readDetails, Event.readMicro, Event.readTmdb] ++
    (resolveTmdbId dom net).1

/-- The `window.onload` handler: run `initPage`, extract query and IDs,
resolve a missing TMDb ID through the API, and either log the failure
diagnostic, or call the externally supplied `globalThis.getServices`
provider (when present) once and `addService` each returned descriptor in
order.  `provider = none` models an undefined `getServices`, in which case
optional chaining yields `undefined` and `|| []` supplies the empty list. -/
def handler (dom : Dom)
    (provider : Option (String → Option String → Option JsId → List ServiceData))
    (net : String → FetchOutcome) : HandlerOut :=
  let st0 := initPage dom (startState dom)
  let fetchedTmdbId := (resolveTmdbId dom net).2.2
  if failCond dom net then
    { trace := preEvents dom net ++ [Event.diagFailure],
      providerCalls := [],
      usedTmdbId := fetchedTmdbId,
      headAppended := st0.headAppended,
      servicesContent := st0.servicesContent,
      handlerDiagnostics := 1,
      fetchDiagnostics := (resolveTmdbId dom net).2.1 }
  else
    let services :=
      match provider with
      | none => []
      | some f => f (getQuery dom) (getImdbID dom) fetchedTmdbId
    let calls :=
      match provider with
      | none => []
      | some _ => [(getQuery dom, getImdbID dom, fetchedTmdbId)]
    let appendEvents :=
      services.flatMap (fun _ =>
        [Event.readServices] ++
          (if st0.servicesContent.isSome then [Event.mutAppend] else []))
    let finalState := services.foldl addService st0
    { trace := preEvents dom net ++ appendEvents,
      providerCalls := calls,
      usedTmdbId := fetchedTmdbId,
      headAppended := finalState.headAppended,
      servicesContent := finalState.servicesContent,
      handlerDiagnostics := 0,
      fetchDiagnostics := (resolveTmdbId dom net).2.1 }

/-- An example of a fully populated film page: every selector resolves
and the page has a `#watch` section. -/
def exDom : Dom :=
  { microButtonHref := some "http://www.imdb.com/title/tt2404463/maindetails",
    tmdbButtonHref := some "https://www.themoviedb.org/movie/136795",
    detailsTitle := some "The Heat",
    detailsYear := some "2013",
    locationHref := "https://letterboxd.com/film/the-heat/",
    watchPresent := true,
    hostServicesPresent := false }

/-- An example of a page on which every selector misses. -/
def emptyDom : Dom :=
  { microButtonHref := none,
    tmdbButtonHref := none,
    detailsTitle := none,
    detailsYear := none,
    locationHref := "",
    watchPresent := false,
    hostServicesPresent := false }

/-- The example page with both identifier buttons missing, so that only
the network fallback can supply an identifier. -/
def exDomNoIds : Dom :=
  { exDom with microButtonHref := none, tmdbButtonHref := none }

/-- An example network oracle whose search result carries the TMDb
identifier `0`. -/
def zeroNet : String → FetchOutcome :=
  fun _ => FetchOutcome.ok (some [⟨0⟩])

/-- An example provider returning a single service descriptor. -/
def exProvider : String → Option String → Option JsId → List ServiceData :=
  fun _ _ _ => [⟨"Plex", "https://app.plex.tv/search", "icon.png"⟩]

/-- An example network oracle on which every fetch fails. -/
def downNet : String → FetchOutcome := fun _ => FetchOutcome.netError

/-- The service links the handler appended to the services section
(none when the document has no `.services` element). -/
def appendedItems (out : HandlerOut) : List Node :=
  out.servicesContent.getD []

/-- Claim C1 as stated: whenever the extracted query is non-empty and at
least one identifier (IMDb, or TMDb after the fallback lookup) is
available (non-null), the provider is called exactly once with the triple
and exactly one link is appended per returned descriptor in order (zero
links when no provider is supplied); otherwise one console diagnostic is
logged and no link is appended. -/
def claim1Statement : Prop :=
  ∀ (dom : Dom)
    (provider : Option (String → Option String → Option JsId → List ServiceData))
    (net : String → FetchOutcome),
    (strIsEmpty (getQuery dom) = false ∧
        (getImdbID dom ≠ none ∨ (resolveTmdbId dom net).2.2 ≠ none) →
      (∀ f, provider = some f →
        (handler dom provider net).providerCalls =
          [(getQuery dom, getImdbID dom, (resolveTmdbId dom net).2.2)] ∧
        appendedItems (handler dom provider net) =
          (f (getQuery dom) (getImdbID dom) ((resolveTmdbId dom net).2.2)).map
            serviceItem) ∧
      (provider = none →
        (handler dom provider net).providerCalls = [] ∧
        appendedItems (handler dom provider net) = [])) ∧
    (¬(strIsEmpty (getQuery dom) = false ∧
        (getImdbID dom ≠ none ∨ (resolveTmdbId dom net).2.2 ≠ none)) →
      (handler dom provider net).handlerDiagnostics = 1 ∧
      appendedItems (handler dom provider net) = [])

/-- Claim C7 as stated: in the handler's event trace, every read of the
host page's markup precedes every DOM mutation performed by the script. -/
def claim7Statement : Prop :=
  ∀ (dom : Dom)
    (provider : Option (String → Option String → Option JsId → List ServiceData))
    (net : String → FetchOutcome)
    (i j : Nat)
    (hi : i < (handler dom provider net).trace.length)
    (hj : j < (handler dom provider net).trace.length),
    Event.isMarkupRead ((handler dom provider net).trace.get ⟨i, hi⟩) = true →
    Event.isMutation ((handler dom provider net).trace.get ⟨j, hj⟩) = true →
    i < j

/-- In the trace `tr`, every read of the host page's markup precedes
every service-link append. -/
def ReadsBeforeAppends (tr : List Event) : Prop :=
  ∀ i j (hi : i < tr.length) (hj : j < tr.length),
    Event.isMarkupRead (tr.get ⟨i, hi⟩) = true →
    tr.get ⟨j, hj⟩ = Event.mutAppend → i < j

/-- In the trace `tr`, every mutation that precedes a markup read is one
of the two `initPage` mutations. -/
def EarlyMutsAreInit (tr : List Event) : Prop :=
  ∀ i j (hi : i < tr.length) (hj : j < tr.length), i < j →
    Event.isMutation (tr.get ⟨i, hi⟩) = true →
    Event.isMarkupRead (tr.get ⟨j, hj⟩) = true →
    tr.get ⟨i, hi⟩ = Event.mutStyle ∨ tr.get ⟨i, hi⟩ = Event.mutReplaceWatch

/-! ## Helper lemmas -/

/-- `addService` on a page without a `.services` element is the identity. -/
theorem addService_no_section (st : PageState) (sd : ServiceData)
    (h : st.servicesContent = none) : addService st sd = st := by
  unfold addService
  rw [h]

/-- `addService` on a page with a `.services` element appends exactly the
service item. -/
theorem addService_section (st : PageState) (items : List Node) (sd : ServiceData)
    (h : st.servicesContent = some items) :
    addService st sd =
      { st with servicesContent := some (items ++ [serviceItem sd]) } := by
  unfold addService
  rw [h]

/-- Folding `addService` over a page without a `.services` element leaves
the page unchanged. -/
theorem foldl_addService_no_section (l : List ServiceData) (st : PageState)
    (h : st.servicesContent = none) : l.foldl addService st = st := by
  induction l generalizing st with
  | nil => rfl
  | cons a l ih =>
    rw [List.foldl_cons, addService_no_section st a h]
    exact ih st h

/-- Folding `addService` over a page with a `.services` element appends
exactly one service item per descriptor, in order, and touches nothing
else. -/
theorem foldl_addService_section (l : List ServiceData) (st : PageState)
    (items : List Node) (h : st.servicesContent = some items) :
    (l.foldl addService st).headAppended = st.headAppended ∧
    (l.foldl addService st).servicesContent =
      some (items ++ l.map serviceItem) := by
  induction l generalizing st items with
  | nil =>
    rw [List.foldl_nil, h]
    simp
  | cons a l ih =>
    rw [List.foldl_cons, addService_section st items a h]
    obtain ⟨h1, h2⟩ :=
      ih { st with servicesContent := some (items ++ [serviceItem a]) }
        (items ++ [serviceItem a]) rfl
    refine ⟨h1, ?_⟩
    rw [h2]
    simp

/-- After `initPage`, the `.services` children list is empty when the
section exists and absent otherwise. -/
theorem initPage_startState_servicesContent (dom : Dom) :
    (initPage dom (startState dom)).servicesContent =
      (if servicesPresent dom then some [] else none) := by
  unfold initPage startState servicesPresent
  cases dom.watchPresent <;> cases dom.hostServicesPresent <;> simp

/-- The TMDb identifier the handler ends up using is the one computed by
the fallback block. -/
theorem handler_usedTmdbId (dom : Dom)
    (provider : Option (String → Option String → Option JsId → List ServiceData))
    (net : String → FetchOutcome) :
    (handler dom provider net).usedTmdbId = (resolveTmdbId dom net).2.2 := by
  unfold handler
  by_cases hc : failCond dom net <;> simp [hc]

/-- Every element of the append-loop's event block is a services-section
lookup or a link append. -/
theorem appendEvents_elems (l : List ServiceData) (b : Bool) :
    ∀ e ∈ l.flatMap (fun _ =>
      [Event.readServices] ++ (if b then [Event.mutAppend] else [])),
      e = Event.readServices ∨ e = Event.mutAppend := by
  intro e he
  rw [List.mem_flatMap] at he
  obtain ⟨a, _, he⟩ := he
  cases b
  · simp at he
    exact Or.inl he
  · simp at he
    exact he

/-- The handler's trace is the pre-phase (init mutations, selector reads,
fallback events) followed by a tail holding only the failure diagnostic or
the append-loop events. -/
theorem handler_trace_split (dom : Dom)
    (provider : Option (String → Option String → Option JsId → List ServiceData))
    (net : String → FetchOutcome) :
    ∃ tail, (handler dom provider net).trace = preEvents dom net ++ tail ∧
      ∀ e ∈ tail, e = Event.diagFailure ∨ e = Event.readServices ∨
        e = Event.mutAppend := by
  unfold handler
  by_cases hc : failCond dom net
  · refine ⟨[Event.diagFailure], by simp [hc], ?_⟩
    intro e he
    simp at he
    exact Or.inl he
  · refine ⟨(match provider with
        | none => []
        | some f => f (getQuery dom) (getImdbID dom)
            (resolveTmdbId dom net).2.2).flatMap
      (fun _ => [Event.readServices] ++
        (if (initPage dom (startState dom)).servicesContent.isSome then
          [Event.mutAppend] else [])), by simp [hc], ?_⟩
    intro e he
    rcases appendEvents_elems _ _ e he with h | h
    · exact Or.inr (Or.inl h)
    · exact Or.inr (Or.inr h)

/-- The pre-phase contains the network-call event exactly when the page
TMDb ID was missing and a slug was extracted, and then exactly once. -/
theorem preEvents_netFetch_count (dom : Dom) (net : String → FetchOutcome) :
    (preEvents dom net).countP Event.isNetFetch =
      (match getTmdbID dom, getLetterboxdFilmName dom with
        | none, some _ => 1
        | _, _ => 0) := by
  unfold preEvents resolveTmdbId
  cases h1 : getTmdbID dom <;> cases h2 : getLetterboxdFilmName dom <;>
    cases hw : dom.watchPresent <;>
      simp [List.countP_append, List.countP_cons, Event.isNetFetch]

/-- A network-call event in the pre-phase carries the extracted slug, and
occurs only when the page TMDb ID was missing. -/
theorem preEvents_netFetch_mem (dom : Dom) (net : String → FetchOutcome)
    (slug : String) (h : Event.netFetch slug ∈ preEvents dom net) :
    getTmdbID dom = none ∧ getLetterboxdFilmName dom = some slug := by
  unfold preEvents resolveTmdbId at h
  cases h1 : getTmdbID dom <;> cases h2 : getLetterboxdFilmName dom <;>
    rw [h1, h2] at h <;> cases hw : dom.watchPresent <;> rw [hw] at h <;>
      simp at h
  · exact ⟨rfl, by rw [h]⟩
  · exact ⟨rfl, by rw [h]⟩

/-- No element of the pre-phase is a link append. -/
theorem preEvents_no_append (dom : Dom) (net : String → FetchOutcome) :
    ∀ e ∈ preEvents dom net, e ≠ Event.mutAppend := by
  unfold preEvents resolveTmdbId
  cases h1 : getTmdbID dom <;> cases h2 : getLetterboxdFilmName dom <;>
    cases hw : dom.watchPresent <;> intro e he <;> simp at he <;>
      rcases he with rfl | rfl | rfl | rfl | rfl | rfl | rfl <;> simp

/-- Every mutation in the pre-phase is one of the two `initPage`
mutations. -/
theorem preEvents_muts_are_init (dom : Dom) (net : String → FetchOutcome) :
    ∀ e ∈ preEvents dom net, Event.isMutation e = true →
      e = Event.mutStyle ∨ e = Event.mutReplaceWatch := by
  unfold preEvents resolveTmdbId
  cases h1 : getTmdbID dom <;> cases h2 : getLetterboxdFilmName dom <;>
    cases hw : dom.watchPresent <;> intro e he <;> simp at he <;>
      rcases he with rfl | rfl | rfl | rfl | rfl | rfl | rfl <;> simp [Event.isMutation]

/-! ## Claims -/

/-- C2: `fetchTmdbIdFromLetterboxd` returns the identifier field of the
first element of `results` exactly when the parsed body has a non-empty
`results` array; on an absent or empty array and on a network or parsing
failure it returns `null` with one console diagnostic; being a total
function of the fetch outcome, it propagates no exception. -/
theorem fetchTmdbId_first_result_or_null (o : FetchOutcome) :
    (∀ n : Nat, (fetchTmdbIdFromLetterboxd o).value = some n ↔
      ∃ r rs, o = FetchOutcome.ok (some (r :: rs)) ∧ n = r.id) ∧
    ((fetchTmdbIdFromLetterboxd o).value = none →
      (fetchTmdbIdFromLetterboxd o).diagnostics = 1) ∧
    (∀ n : Nat, (fetchTmdbIdFromLetterboxd o).value = some n →
      (fetchTmdbIdFromLetterboxd o).diagnostics = 0) := by
  rcases o with _ | (_ | (_ | ⟨r, rs⟩)) <;>
    simp [fetchTmdbIdFromLetterboxd]
  exact fun n => eq_comm

/-- Witness for C2 at two concrete outcomes. -/
theorem fetchTmdbId_first_result_or_null_witness :
    (fetchTmdbIdFromLetterboxd (FetchOutcome.ok (some [⟨949⟩]))).value = some 949 ∧
    (fetchTmdbIdFromLetterboxd (FetchOutcome.ok (some [⟨949⟩]))).diagnostics = 0 ∧
    (fetchTmdbIdFromLetterboxd FetchOutcome.netError).diagnostics = 1 := by
  have h1 := fetchTmdbId_first_result_or_null (FetchOutcome.ok (some [⟨949⟩]))
  have h2 := fetchTmdbId_first_result_or_null FetchOutcome.netError
  refine ⟨(h1.1 949).2 ⟨⟨949⟩, [], rfl, rfl⟩, ?_, h2.2.1 rfl⟩
  exact h1.2.2 949 ((h1.1 949).2 ⟨⟨949⟩, [], rfl, rfl⟩)

/-- C4: the code drops the release year.  On a page whose details
container holds the title `"The Heat"` and the release year `"2013"`,
`getQuery` evaluates to `"The-Heat"`: the year read from
`.releaseyear > a` never reaches the query, contradicting the function's
own documentation (`Film's query (title and year)`). -/
theorem getQuery_drops_year :
    exDom.detailsTitle = some "The Heat" ∧ exDom.detailsYear = some "2013" ∧
    getQuery exDom = "The-Heat" :=
  ⟨rfl, rfl, rfl⟩

/-- C5: when a `.services` section exists, `addService` appends exactly
one paragraph to it — `p.service` holding one anchor `a.label` whose
`href` is the descriptor's URL, with `target="_blank"`, containing the
icon image (`img` with `src` the descriptor's icon) and the display name
as text — and leaves the rest of the page alone. -/
theorem addService_appends_one_link (st : PageState) (items : List Node)
    (sd : ServiceData) (h : st.servicesContent = some items) :
    (addService st sd).headAppended = st.headAppended ∧
    (addService st sd).servicesContent = some (items ++
      [Node.elem "p" [("class", "service")]
        [Node.elem "a" [("href", sd.url), ("target", "_blank"), ("class", "label")]
          [Node.elem "span" [("class", "brand")]
            [Node.elem "img" [("src", sd.icon), ("width", "20"), ("height", "20")] []],
           Node.elem "span" [("class", "title")] [Node.text sd.name]]]]) := by
  rw [addService_section st items sd h]
  exact ⟨rfl, rfl⟩

/-- Witness for C5: one concrete descriptor appended to an empty section. -/
theorem addService_appends_one_link_witness :
    (addService ⟨[], some []⟩ ⟨"Plex", "https://app.plex.tv/search", "icon.png"⟩).headAppended
      = ([] : List Node) ∧
    (addService ⟨[], some []⟩ ⟨"Plex", "https://app.plex.tv/search", "icon.png"⟩).servicesContent
      = some ([] ++
        [Node.elem "p" [("class", "service")]
          [Node.elem "a" [("href", "https://app.plex.tv/search"), ("target", "_blank"),
              ("class", "label")]
            [Node.elem "span" [("class", "brand")]
              [Node.elem "img" [("src", "icon.png"), ("width", "20"), ("height", "20")] []],
             Node.elem "span" [("class", "title")] [Node.text "Plex"]]]]) :=
  addService_appends_one_link ⟨[], some []⟩ []
    ⟨"Plex", "https://app.plex.tv/search", "icon.png"⟩ rfl

/-- C10: when the document has no element matching `.services`,
`addService` returns without touching the page at all. -/
theorem addService_noop_without_section (st : PageState) (sd : ServiceData)
    (h : st.servicesContent = none) : addService st sd = st :=
  addService_no_section st sd h

/-- Witness for C10 at a concrete state, as produced by a page that had
no `#watch` element for `initPage` to replace. -/
theorem addService_noop_without_section_witness :
    addService (initPage emptyDom (startState emptyDom))
      ⟨"Plex", "https://app.plex.tv/search", "icon.png"⟩
    = initPage emptyDom (startState emptyDom) :=
  addService_noop_without_section _ _ rfl

/-- C8: whenever `getImdbID` returns a value, that value is segment 4
(the fifth slash-separated segment) of the micro-button's `href` and
starts with `"tt"`. -/
theorem getImdbID_some_characterisation (dom : Dom) (id : String)
    (h : getImdbID dom = some id) :
    ∃ u, dom.microButtonHref = some u ∧
      (jsSplit '/' u)[4]? = some id ∧ strStartsWith id "tt" = true := by
  unfold getImdbID at h
  split at h
  · cases h
  next u hu =>
    split at h
    · cases h
    next s hseg =>
      split at h
      next hs =>
        cases h
        exact ⟨u, hu, hseg, hs⟩
      · cases h

/-- Witness for C8 at a concrete micro-button `href`. -/
theorem getImdbID_some_characterisation_witness :
    ∃ u, exDom.microButtonHref = some u ∧
      (jsSplit '/' u)[4]? = some "tt2404463" ∧
      strStartsWith "tt2404463" "tt" = true :=
  getImdbID_some_characterisation exDom "tt2404463" rfl

/-- C9: whenever `getTmdbID` returns a value, that value is the last
slash-separated segment of the tmdb-button's `href`, is non-empty, and
consists only of decimal digits. -/
theorem getTmdbID_some_characterisation (dom : Dom) (id : String)
    (h : getTmdbID dom = some id) :
    ∃ u, dom.tmdbButtonHref = some u ∧
      (jsSplit '/' u).getLast? = some id ∧
      strIsEmpty id = false ∧ strAllDigits id = true := by
  unfold getTmdbID at h
  split at h
  · cases h
  next u hu =>
    split at h
    · cases h
    next s hseg =>
      split at h
      next hs =>
        cases h
        obtain ⟨h1, h2⟩ := Bool.and_eq_true_iff.mp hs
        exact ⟨u, hu, hseg, by simpa using h1, h2⟩
      · cases h

/-- Witness for C9 at a concrete tmdb-button `href`. -/
theorem getTmdbID_some_characterisation_witness :
    ∃ u, exDom.tmdbButtonHref = some u ∧
      (jsSplit '/' u).getLast? = some "136795" ∧
      strIsEmpty "136795" = false ∧ strAllDigits "136795" = true :=
  getTmdbID_some_characterisation exDom "136795" rfl

/-- C6: each extraction function is a total function of the DOM state,
and degrades to `null` (or `""` for `getQuery`) when its selector misses
or its value fails validation: a missing micro-button, a missing fifth
URL segment, or a segment not starting with `"tt"` give `getImdbID` = `none`;
a missing tmdb-button, a missing last segment, or a non-numeric segment
give `getTmdbID` = `none`; a missing title gives `getQuery` = `""`; an URL
not matching the film-page pattern gives `getLetterboxdFilmName` = `none`. -/
theorem extractors_degrade_to_null (dom : Dom) :
    (dom.microButtonHref = none → getImdbID dom = none) ∧
    (∀ u, dom.microButtonHref = some u → (jsSplit '/' u)[4]? = none →
      getImdbID dom = none) ∧
    (∀ u s, dom.microButtonHref = some u → (jsSplit '/' u)[4]? = some s →
      strStartsWith s "tt" = false → getImdbID dom = none) ∧
    (dom.tmdbButtonHref = none → getTmdbID dom = none) ∧
    (∀ u, dom.tmdbButtonHref = some u → (jsSplit '/' u).getLast? = none →
      getTmdbID dom = none) ∧
    (∀ u s, dom.tmdbButtonHref = some u → (jsSplit '/' u).getLast? = some s →
      (!(strIsEmpty s) && strAllDigits s) = false → getTmdbID dom = none) ∧
    (dom.detailsTitle = none → getQuery dom = "") ∧
    (lbScan dom.locationHref.toList = none → getLetterboxdFilmName dom = none) := by
  refine ⟨?_, ?_, ?_, ?_, ?_, ?_, ?_, ?_⟩
  · intro h
    simp [getImdbID, h]
  · intro u hu hseg
    simp [getImdbID, hu, hseg]
  · intro u s hu hseg hs
    simp [getImdbID, hu, hseg, hs]
  · intro h
    simp [getTmdbID, h]
  · intro u hu hseg
    simp [getTmdbID, hu, hseg]
  · intro u s hu hseg hs
    simp [getTmdbID, hu, hseg, hs]
  · intro h
    unfold getQuery
    rw [h]
    rfl
  · intro h
    unfold getLetterboxdFilmName
    exact h

/-- Witness for C6 on the page where every selector misses. -/
theorem extractors_degrade_to_null_witness :
    getImdbID emptyDom = none ∧ getTmdbID emptyDom = none ∧
    getQuery emptyDom = "" ∧ getLetterboxdFilmName emptyDom = none := by
  have h := extractors_degrade_to_null emptyDom
  exact ⟨h.1 rfl, h.2.2.2.1 rfl, h.2.2.2.2.2.2.1 rfl,
    h.2.2.2.2.2.2.2 rfl⟩

/-- C3: in every run of the load handler the identifier-lookup network
call happens at most once; it happens only when the page TMDb ID is
missing and a film slug was extracted from the URL; and when the page
TMDb ID is present, no network call is made and that ID (as a string) is
the one used. -/
theorem handler_network_at_most_once (dom : Dom)
    (provider : Option (String → Option String → Option JsId → List ServiceData))
    (net : String → FetchOutcome) :
    ((handler dom provider net).trace.countP Event.isNetFetch ≤ 1) ∧
    (∀ slug, Event.netFetch slug ∈ (handler dom provider net).trace →
      getTmdbID dom = none ∧ getLetterboxdFilmName dom = some slug) ∧
    (∀ t, getTmdbID dom = some t →
      (handler dom provider net).trace.countP Event.isNetFetch = 0 ∧
      (handler dom provider net).usedTmdbId = some (JsId.str t)) := by
  obtain ⟨tail, htr, htail⟩ := handler_trace_split dom provider net
  have htail0 : tail.countP Event.isNetFetch = 0 := by
    rw [List.countP_eq_zero]
    intro e he
    rcases htail e he with rfl | rfl | rfl <;> simp [Event.isNetFetch]
  refine ⟨?_, ?_, ?_⟩
  · rw [htr, List.countP_append, htail0, preEvents_netFetch_count]
    cases h1 : getTmdbID dom <;> cases h2 : getLetterboxdFilmName dom <;> simp
  · intro slug hmem
    rw [htr, List.mem_append] at hmem
    rcases hmem with hmem | hmem
    · exact preEvents_netFetch_mem dom net slug hmem
    · rcases htail _ hmem with h | h | h <;> cases h
  · intro t ht
    constructor
    · rw [htr, List.countP_append, htail0, preEvents_netFetch_count, ht]
    · rw [handler_usedTmdbId]
      unfold resolveTmdbId
      rw [ht]

/-- Witness for C3 on a page whose tmdb-button is present: no fetch, and
the page ID is the one used. -/
theorem handler_network_at_most_once_witness :
    getTmdbID exDom = some "136795" ∧
    (handler exDom (some exProvider) downNet).trace.countP Event.isNetFetch = 0 ∧
    (handler exDom (some exProvider) downNet).usedTmdbId =
      some (JsId.str "136795") := by
  have h :=
    (handler_network_at_most_once exDom (some exProvider) downNet).2.2 "136795" rfl
  exact ⟨rfl, h.1, h.2⟩

/-- In a trace of the form `xs ++ ys` where `xs` holds no link append and
`ys` holds no markup read, every markup read precedes every link append. -/
theorem reads_precede_appends_of_split (xs ys : List Event)
    (hys : ∀ e ∈ ys, Event.isMarkupRead e = false)
    (hxs : ∀ e ∈ xs, e ≠ Event.mutAppend) :
    ReadsBeforeAppends (xs ++ ys) := by
  intro i j hi hj hread happ
  have hjlen : xs.length ≤ j := by
    by_contra hlt
    push_neg at hlt
    have hmem : (xs ++ ys).get ⟨j, hj⟩ ∈ xs := by
      rw [List.get_eq_getElem, List.getElem_append_left hlt]
      exact List.getElem_mem _
    exact (hxs _ hmem) happ
  have hilt : i < xs.length := by
    by_contra hge
    push_neg at hge
    have hmem : (xs ++ ys).get ⟨i, hi⟩ ∈ ys := by
      rw [List.get_eq_getElem, List.getElem_append_right hge]
      exact List.getElem_mem _
    rw [hys _ hmem] at hread
    cases hread
  omega

/-- In a trace of the form `xs ++ ys` where the only mutations in `xs`
are the two `initPage` ones and `ys` holds no markup read, every mutation
that precedes a markup read is an `initPage` mutation. -/
theorem early_muts_are_init_of_split (xs ys : List Event)
    (hys : ∀ e ∈ ys, Event.isMarkupRead e = false)
    (hxs : ∀ e ∈ xs, Event.isMutation e = true →
      e = Event.mutStyle ∨ e = Event.mutReplaceWatch) :
    EarlyMutsAreInit (xs ++ ys) := by
  intro i j hi hj hij hmut hread
  have hjlt : j < xs.length := by
    by_contra hge
    push_neg at hge
    have hmem : (xs ++ ys).get ⟨j, hj⟩ ∈ ys := by
      rw [List.get_eq_getElem, List.getElem_append_right hge]
      exact List.getElem_mem _
    rw [hys _ hmem] at hread
    cases hread
  have hilt : i < xs.length := by omega
  have hmem : (xs ++ ys).get ⟨i, hi⟩ ∈ xs := by
    rw [List.get_eq_getElem, List.getElem_append_left hilt]
    exact List.getElem_mem _
  exact hxs _ hmem hmut

/-- C7 fails on the code as stated: `initPage` mutates the DOM (style
injection, `#watch` replacement) before any selector read.  On the page
where every selector misses, the trace starts with the style mutation and
the details read comes only second. -/
theorem handler_mutates_before_reading : ¬ claim7Statement := by
  intro h
  have h2 := h emptyDom none downNet 1 0 (by decide) (by decide)
    (by decide) (by decide)
  exact absurd h2 (by decide)

/-- C7 amended: the only DOM mutations preceding a markup read are the
two `initPage` mutations (style injection and `#watch` replacement);
apart from those, the handler reads the page before mutating it — every
markup read precedes every service-link append. -/
theorem handler_reads_before_appends (dom : Dom)
    (provider : Option (String → Option String → Option JsId → List ServiceData))
    (net : String → FetchOutcome) :
    ReadsBeforeAppends (handler dom provider net).trace ∧
    EarlyMutsAreInit (handler dom provider net).trace := by
  obtain ⟨tail, htr, htail⟩ := handler_trace_split dom provider net
  have hys : ∀ e ∈ tail, Event.isMarkupRead e = false := by
    intro e he
    rcases htail e he with rfl | rfl | rfl <;> rfl
  rw [htr]
  exact ⟨reads_precede_appends_of_split (preEvents dom net) tail hys
      (preEvents_no_append dom net),
    early_muts_are_init_of_split (preEvents dom net) tail hys
      (preEvents_muts_are_init dom net)⟩

/-- Witness for the amended C7 on a fully populated page: the details
read (index 2) precedes the link append (index 6) in the seven-event
trace. -/
theorem handler_reads_before_appends_witness :
    (handler exDom (some exProvider) downNet).trace =
      [Event.mutStyle, Event.mutReplaceWatch, Event.readDetails,
        Event.readMicro, Event.readTmdb, Event.readServices,
        Event.mutAppend] ∧
    2 < 6 := by
  refine ⟨by decide, ?_⟩
  exact (handler_reads_before_appends exDom (some exProvider) downNet).1 2 6
    (by decide) (by decide) (by decide) (by decide)

/-- A non-null `getImdbID` result is always truthy: the returned string
starts with `"tt"` and is therefore non-empty. -/
theorem optStrTruthy_getImdbID (dom : Dom) :
    optStrTruthy (getImdbID dom) = true ↔ getImdbID dom ≠ none := by
  unfold getImdbID
  split
  · simp [optStrTruthy]
  next u hu =>
    split
    · simp [optStrTruthy]
    next s hseg =>
      split
      next hs =>
        simp only [optStrTruthy]
        constructor
        · intro _
          simp
        · intro _
          unfold strStartsWith at hs
          unfold strIsEmpty
          cases hsl : s.toList with
          | nil =>
            rw [hsl] at hs
            exact absurd hs (by decide)
          | cons c cs => simp [hsl]
      · simp [optStrTruthy]

/-- C1 fails on the code as stated, in two ways.  First (shown by the
`claim1Statement` refutation): on a page with a non-empty query and a
valid IMDb ID but no `#watch` element and no pre-existing `.services`
element, the provider is called and returns one descriptor, yet no link
is appended, because `addService` finds no `.services` section.  Second
(exhibited by the remaining conjuncts): when the fallback lookup returns
the TMDb identifier `0`, an identifier is available (non-null), yet the
handler takes the failure branch — `0` is falsy in the guard — so the
provider is never called and the diagnostic is logged. -/
theorem handler_render_claim_false :
    ¬ claim1Statement ∧
    ((resolveTmdbId exDomNoIds zeroNet).2.2 = some (JsId.num 0) ∧
      strIsEmpty (getQuery exDomNoIds) = false ∧
      (handler exDomNoIds (some exProvider) zeroNet).providerCalls = [] ∧
      (handler exDomNoIds (some exProvider) zeroNet).handlerDiagnostics = 1) := by
  refine ⟨?_, rfl, rfl, rfl, rfl⟩
  intro h
  obtain ⟨h1, -⟩ := h { exDom with watchPresent := false } (some exProvider) downNet
  have hb := (h1 ⟨rfl, Or.inl (by decide)⟩).1 exProvider rfl
  have hc : appendedItems
      (handler { exDom with watchPresent := false } (some exProvider) downNet)
      = [] := rfl
  rw [hc] at hb
  simpa [exProvider] using hb.2

/-- C1 amended: with the rendering condition read as the code's guard —
non-empty query, and a truthy identifier (non-null IMDb ID, or a resolved
TMDb ID that is non-null and, when numeric, non-zero) — the handler calls
the provider exactly once with (query, imdbId, resolvedTmdbId) and appends
one link per descriptor in order when a `.services` section exists (and
none otherwise, the section being present exactly when the page had a
`#watch` or `.services` element); with no provider, no link; otherwise one
failure diagnostic, no provider call and no link. -/
theorem handler_renders_amended (dom : Dom)
    (provider : Option (String → Option String → Option JsId → List ServiceData))
    (net : String → FetchOutcome) :
    (failCond dom net = false →
      (handler dom provider net).handlerDiagnostics = 0 ∧
      (∀ f, provider = some f →
        (handler dom provider net).providerCalls =
          [(getQuery dom, getImdbID dom, (resolveTmdbId dom net).2.2)] ∧
        (handler dom provider net).servicesContent =
          (if servicesPresent dom then
            some ((f (getQuery dom) (getImdbID dom)
              ((resolveTmdbId dom net).2.2)).map serviceItem)
          else none)) ∧
      (provider = none →
        (handler dom provider net).providerCalls = [] ∧
        (handler dom provider net).servicesContent =
          (if servicesPresent dom then some [] else none))) ∧
    (failCond dom net = true →
      (handler dom provider net).handlerDiagnostics = 1 ∧
      (handler dom provider net).providerCalls = [] ∧
      (handler dom provider net).servicesContent =
        (if servicesPresent dom then some [] else none)) ∧
    (failCond dom net = false ↔
      strIsEmpty (getQuery dom) = false ∧
        (getImdbID dom ≠ none ∨
          optJsIdTruthy ((resolveTmdbId dom net).2.2) = true)) := by
  have h0 := initPage_startState_servicesContent dom
  refine ⟨?_, ?_, ?_⟩
  · intro hc
    refine ⟨by simp [handler, hc], ?_, ?_⟩
    · intro f hf
      subst hf
      constructor
      · simp [handler, hc]
      · simp only [handler, hc, Bool.false_eq_true, if_false]
        cases hsp : servicesPresent dom
        · rw [hsp] at h0
          simp only [Bool.false_eq_true, if_false] at h0
          rw [foldl_addService_no_section _ _ h0, h0]
          simp
        · rw [hsp] at h0
          simp only [if_true] at h0
          obtain ⟨-, h2⟩ := foldl_addService_section _ _ [] h0
          rw [h2]
          simp
    · intro hf
      subst hf
      refine ⟨by simp [handler, hc], ?_⟩
      simp only [handler, hc, Bool.false_eq_true, if_false, List.foldl_nil]
      exact h0
  · intro hc
    exact ⟨by simp [handler, hc], by simp [handler, hc], by
      simp only [handler, hc, if_true]
      exact h0⟩
  · rw [← optStrTruthy_getImdbID dom]
    unfold failCond
    cases hq : strIsEmpty (getQuery dom) <;>
      cases ha : optStrTruthy (getImdbID dom) <;>
        cases hb : optJsIdTruthy ((resolveTmdbId dom net).2.2) <;>
          simp [hq, ha, hb]

/-- Witness for the amended C1 on a fully populated page with a provider
returning one descriptor: one provider call with the triple, one link
appended. -/
theorem handler_renders_amended_witness :
    failCond exDom downNet = false ∧
    (handler exDom (some exProvider) downNet).providerCalls =
      [(getQuery exDom, getImdbID exDom, (resolveTmdbId exDom downNet).2.2)] ∧
    (handler exDom (some exProvider) downNet).servicesContent =
      some ((exProvider (getQuery exDom) (getImdbID exDom)
        ((resolveTmdbId exDom downNet).2.2)).map serviceItem) := by
  obtain ⟨-, h2, -⟩ :=
    (handler_renders_amended exDom (some exProvider) downNet).1 rfl
  obtain ⟨hcalls, hcontent⟩ := h2 exProvider rfl
  refine ⟨rfl, hcalls, ?_⟩
  rw [hcontent]
  rfl

end LetterboxdServices
